import Mathlib

/-!
Shallow embedding of the payment settlement core of the ecommerce API:
order aggregate building (`OrderService.calculateOrderItems` /
`calculateTotal`), payment orchestration (`PaymentService.processPayment`),
and the settlement engine (`PaymentRepository.updateDbOnPaymentSucceed`,
`updateDbOnPaymentFailed`, `updateDbOnPaymentCanceled`).

Database state is a record of lists of rows; each repository method that
runs inside `AppDataSource.transaction` is embedded as a function whose
body runs in `Except` (a thrown error aborts the transaction) wrapped so
that an aborted transaction leaves the state exactly as it was.
-/

namespace ECom

/-- Order.status column: 'pending' | 'paid' | 'canceled'. -/
inductive OrderStatus where
  | pending
  | paid
  | canceled
deriving DecidableEq, Repr

/-- Payment.status column: 'pending' | 'completed' | 'failed' | 'canceled'. -/
inductive PaymentStatus where
  | pending
  | completed
  | failed
  | canceled
deriving DecidableEq, Repr

/-- PaymentProvider enum: 'stripe' | 'bkash'. -/
inductive Provider where
  | stripe
  | bkash
deriving DecidableEq, Repr

/-- String rendering of an order status, as used by template interpolation
`Order cannot be paid. Current status: ${order.status}`. -/
def orderStatusToString : OrderStatus → String
  | .pending => "pending"
  | .paid => "paid"
  | .canceled => "canceled"

/-- The error classes of shared/errors/app-error: NotFoundError,
ConflictError, ValidationError and the base AppError (message, httpCode). -/
inductive AppErr where
  | notFound (msg : String)
  | conflict (msg : String)
  | validation (msg : String)
  | appError (msg : String) (code : Nat)
deriving DecidableEq, Repr

/-- order_items row: the fields read by the settlement engine. -/
structure OrderItem where
  productId : Nat
  quantity : Nat
deriving DecidableEq, Repr

/-- orders row: id, status, total_amount and the owned items relation. -/
structure Order where
  id : Nat
  status : OrderStatus
  totalAmount : ℚ
  items : List OrderItem
deriving DecidableEq, Repr

/-- payments row: orderId, provider, transactionId, amount, status and the
opaque rawResponse payload (modelled as a Nat tag). -/
structure Payment where
  orderId : Nat
  provider : Provider
  transactionId : Nat
  amount : ℚ
  status : PaymentStatus
  raw : Nat
deriving DecidableEq, Repr

/-- products row: id and stock (a plain number column, decremented by SQL). -/
structure Product where
  id : Nat
  stock : Int
deriving DecidableEq, Repr

/-- The database state visible to the settlement core. -/
structure DB where
  orders : List Order
  payments : List Payment
  products : List Product
deriving DecidableEq, Repr

/-- `PaymentRepository.findPaymentByTransactionId`: first payment row whose
transactionId matches (with its order and items loaded eagerly). -/
def findPaymentByTransactionId (txId : Nat) (s : DB) : Option Payment :=
  s.payments.find? (fun p => p.transactionId == txId)

/-- Lookup of an orders row by primary key (`OrderRepository.findById` /
the `payment.order` relation). -/
def findOrderById (oid : Nat) (s : DB) : Option Order :=
  s.orders.find? (fun o => o.id == oid)

/-- `PaymentRepository.findByOrderId`: all payment rows for an order. -/
def findPaymentsByOrderId (oid : Nat) (s : DB) : List Payment :=
  s.payments.filter (fun p => p.orderId == oid)

/-- `PaymentRepository.updatePaymentStatus`: UPDATE payments SET status,
rawResponse WHERE transactionId = txId. -/
def updatePaymentStatus (txId : Nat) (st : PaymentStatus) (raw : Nat)
    (ps : List Payment) : List Payment :=
  ps.map (fun p =>
    if p.transactionId == txId then { p with status := st, raw := raw } else p)

/-- UPDATE orders SET status WHERE id = oid (used by all three handlers). -/
def updateOrderStatus (oid : Nat) (st : OrderStatus)
    (os : List Order) : List Order :=
  os.map (fun o => if o.id == oid then { o with status := st } else o)

/-- `PaymentRepository.getProductStock`: SELECT stock FROM products WHERE id. -/
def getProductStock (pid : Nat) (prods : List Product) : Option Int :=
  (prods.find? (fun pr => pr.id == pid)).map (fun pr => pr.stock)

/-- `PaymentRepository.reduceProductStock`: UPDATE products SET
stock = stock - qty WHERE id = pid AND stock >= qty. -/
def reduceProductStock (pid : Nat) (qty : Nat)
    (prods : List Product) : List Product :=
  prods.map (fun pr =>
    if pr.id == pid ∧ (qty : Int) ≤ pr.stock
    then { pr with stock := pr.stock - qty } else pr)

/-- Step 5 of `updateDbOnPaymentSucceed`: for each order item, read the
product's live stock (missing product → NotFoundError; live stock below the
item quantity → AppError 400), then run the guarded SQL decrement. -/
def reduceStockForItems : List OrderItem → List Product →
    Except AppErr (List Product)
  | [], prods => .ok prods
  | item :: rest, prods =>
    match getProductStock item.productId prods with
    | none => .error (.notFound "Product not found")
    | some st =>
      if st < (item.quantity : Int) then
        .error (.appError "Insufficient stock" 400)
      else
        reduceStockForItems rest (reduceProductStock item.productId item.quantity prods)

/-- Transaction body of `PaymentRepository.updateDbOnPaymentSucceed`:
load payment (missing → NotFoundError thrown), idempotency guard on
status = completed, then write payment=completed, order=paid and run the
per-item stock loop (skipped when the order relation is absent). -/
def updateDbOnPaymentSucceedE (txId raw : Nat) (s : DB) : Except AppErr DB :=
  match findPaymentByTransactionId txId s with
  | none => .error (.notFound "Payment not found for transaction")
  | some p =>
    if p.status = PaymentStatus.completed then
      .ok s
    else
      let payments := updatePaymentStatus txId .completed raw s.payments
      let orders := updateOrderStatus p.orderId .paid s.orders
      match findOrderById p.orderId s with
      | none => .ok { orders := orders, payments := payments, products := s.products }
      | some o =>
        match reduceStockForItems o.items s.products with
        | .error e => .error e
        | .ok prods => .ok { orders := orders, payments := payments, products := prods }

/-- `AppDataSource.transaction` semantics: a thrown error rolls the whole
unit of work back, leaving the database exactly as it was. -/
def runTx (body : DB → Except AppErr DB) (s : DB) : DB × Option AppErr :=
  match body s with
  | .ok s' => (s', none)
  | .error e => (s, some e)

/-- `PaymentRepository.updateDbOnPaymentSucceed` (transactional). -/
def updateDbOnPaymentSucceed (txId raw : Nat) (s : DB) : DB × Option AppErr :=
  runTx (updateDbOnPaymentSucceedE txId raw) s

/-- Transaction body of `updateDbOnPaymentFailed`: missing payment → warn
and return; otherwise set payment status = failed, leave the order pending. -/
def updateDbOnPaymentFailedE (txId raw : Nat) (s : DB) : Except AppErr DB :=
  match findPaymentByTransactionId txId s with
  | none => .ok s
  | some _ =>
    .ok { s with payments := updatePaymentStatus txId .failed raw s.payments }

/-- `PaymentRepository.updateDbOnPaymentFailed` (transactional). -/
def updateDbOnPaymentFailed (txId raw : Nat) (s : DB) : DB × Option AppErr :=
  runTx (updateDbOnPaymentFailedE txId raw) s

/-- Transaction body of `updateDbOnPaymentCanceled`: missing payment → warn
and return; otherwise set payment status = failed (as the code does) and
set the order status = canceled, with no completed-status guard. -/
def updateDbOnPaymentCanceledE (txId raw : Nat) (s : DB) : Except AppErr DB :=
  match findPaymentByTransactionId txId s with
  | none => .ok s
  | some p =>
    .ok { s with
          payments := updatePaymentStatus txId .failed raw s.payments,
          orders := updateOrderStatus p.orderId .canceled s.orders }

/-- `PaymentRepository.updateDbOnPaymentCanceled` (transactional). -/
def updateDbOnPaymentCanceled (txId raw : Nat) (s : DB) : DB × Option AppErr :=
  runTx (updateDbOnPaymentCanceledE txId raw) s

/-- A terminal settlement event kind, as dispatched by
`PaymentService.verifyPayment`'s switch on the verification status. -/
inductive SettleEvent where
  | completed
  | failed
  | canceled
deriving DecidableEq, Repr

/-- Dispatch of a settlement event to the corresponding repository handler. -/
def settle (ev : SettleEvent) (txId raw : Nat) (s : DB) : DB × Option AppErr :=
  match ev with
  | .completed => updateDbOnPaymentSucceed txId raw s
  | .failed => updateDbOnPaymentFailed txId raw s
  | .canceled => updateDbOnPaymentCanceled txId raw s

/-- Run a sequence of settlement events (event kind, transactionId, raw). -/
def runSettles (evs : List (SettleEvent × Nat × Nat)) (s : DB) : DB :=
  evs.foldl (fun st e => (settle e.1 e.2.1 e.2.2 st).1) s

/-- `PaymentResult` returned by a provider strategy's `processPayment`
(the provider network call, passed in as a value). -/
structure PaymentResult where
  success : Bool
  transactionId : Nat
  status : PaymentStatus
  raw : Nat
  message : Option String
deriving DecidableEq, Repr

/-- `ProcessPaymentDto`: the createPayment request body. -/
structure ProcessPaymentDto where
  orderId : Nat
  provider : Provider
deriving DecidableEq, Repr

/-- The strategy instances held by `PaymentStrategyFactory`. -/
inductive StrategyTag where
  | stripeStrategy
  | bkashStrategy
deriving DecidableEq, Repr

/-- `PaymentStrategyFactory.getStrategy`: switch on the provider enum. -/
def getStrategy : Provider → StrategyTag
  | .stripe => .stripeStrategy
  | .bkash => .bkashStrategy

/-- The payment row persisted by `paymentRepository.create` in
`processPayment`: status is `completed` when the provider's initial status
is completed, else `pending`; amount snapshots the order total. -/
def mkPaymentRow (data : ProcessPaymentDto) (res : PaymentResult)
    (o : Order) : Payment :=
  { orderId := data.orderId
    provider := data.provider
    transactionId := res.transactionId
    amount := o.totalAmount
    status := if res.status = PaymentStatus.completed
              then PaymentStatus.completed else PaymentStatus.pending
    raw := res.raw }

/-- `PaymentService.processPayment`: reject bkash up front, load and check
the order, reject when a completed payment already exists, invoke the
provider strategy (its result `res` is a parameter), and on provider
success persist exactly one new payment row. No settlement is invoked and
the order row is not touched, whatever the provider's initial status. -/
def processPayment (data : ProcessPaymentDto) (res : PaymentResult) (s : DB) :
    DB × Except AppErr Payment :=
  if data.provider = Provider.bkash then
    (s, .error (.validation "Bkash payment provider is currently not supported."))
  else
    match findOrderById data.orderId s with
    | none => (s, .error (.notFound "Order not found"))
    | some o =>
      if o.status ≠ OrderStatus.pending then
        (s, .error (.conflict
          ("Order cannot be paid. Current status: " ++ orderStatusToString o.status)))
      else
        if (findPaymentsByOrderId data.orderId s).any
            (fun p => p.status == PaymentStatus.completed) then
          (s, .error (.conflict "Order has already been paid"))
        else if res.success = false then
          (s, .error (.validation (res.message.getD "Payment processing failed")))
        else
          ({ s with payments := mkPaymentRow data res o :: s.payments },
           .ok (mkPaymentRow data res o))

/-- `CreateOrderItemDto`: product, quantity and the client-supplied price
(a decimal value, modelled exactly as a rational). -/
structure CreateOrderItem where
  productId : Nat
  quantity : Nat
  price : ℚ
deriving DecidableEq, Repr

/-- Big.js `toFixed(2)` on a nonnegative decimal value: round half-up to
two fractional digits. -/
def toFixed2 (x : ℚ) : ℚ :=
  ((⌊x * 100 + 1 / 2⌋ : ℤ) : ℚ) / 100

/-- A computed order line: `price`, `quantity`, and
`subtotal = price.times(quantity).toFixed(2)`. -/
structure CalcItem where
  productId : Nat
  quantity : Nat
  price : ℚ
  subtotal : ℚ
deriving DecidableEq, Repr

/-- `OrderService.calculateOrderItems`: per line,
subtotal = Big(price).times(quantity).toFixed(2). -/
def calculateOrderItems (items : List CreateOrderItem) : List CalcItem :=
  items.map (fun it =>
    { productId := it.productId
      quantity := it.quantity
      price := it.price
      subtotal := toFixed2 (it.price * it.quantity) })

/-- `OrderService.calculateTotal`: reduce over Big-decimal addition of the
subtotals starting from Big(0), then `.toFixed(2)`. -/
def calculateTotal (items : List CalcItem) : ℚ :=
  toFixed2 (items.foldl (fun acc it => acc + it.subtotal) 0)

/-- Result of `OrderService.createOrder`'s pure aggregate computation: the
pending order with its computed items and total (persistence aside). -/
def createOrderAggregate (items : List CreateOrderItem) :
    OrderStatus × List CalcItem × ℚ :=
  let calced := calculateOrderItems items
  (OrderStatus.pending, calced, calculateTotal calced)

/-! ### Helper lemmas -/

theorem updatePaymentStatus_find (tx : Nat) (st : PaymentStatus) (raw : Nat)
    (ps : List Payment) (p : Payment)
    (hp : ps.find? (fun q => q.transactionId == tx) = some p) :
    (updatePaymentStatus tx st raw ps).find? (fun q => q.transactionId == tx)
      = some { p with status := st, raw := raw } := by
  have hcomp : ((fun q : Payment => q.transactionId == tx) ∘
      (fun x : Payment =>
        if x.transactionId == tx then { x with status := st, raw := raw } else x))
      = (fun q : Payment => q.transactionId == tx) := by
    funext x
    by_cases hx : (x.transactionId == tx) = true <;> simp [Function.comp, hx]
  have hsel : (p.transactionId == tx) = true := by
    have := List.find?_some hp; simpa using this
  unfold updatePaymentStatus
  rw [List.find?_map, hcomp, hp, Option.map_some']
  simp [hsel]

theorem updateOrderStatus_find (oid : Nat) (st : OrderStatus)
    (os : List Order) (o : Order)
    (ho : os.find? (fun q => q.id == oid) = some o) :
    (updateOrderStatus oid st os).find? (fun q => q.id == oid)
      = some { o with status := st } := by
  have hcomp : ((fun q : Order => q.id == oid) ∘
      (fun x : Order => if x.id == oid then { x with status := st } else x))
      = (fun q : Order => q.id == oid) := by
    funext x
    by_cases hx : (x.id == oid) = true <;> simp [Function.comp, hx]
  have hsel : (o.id == oid) = true := by
    have := List.find?_some ho; simpa using this
  unfold updateOrderStatus
  rw [List.find?_map, hcomp, ho, Option.map_some']
  simp [hsel]

/-- Status of an order row in a database state, by order id. -/
def orderStatusIn (oid : Nat) (s : DB) : Option OrderStatus :=
  (findOrderById oid s).map (fun o => o.status)

/-- Status of a payment row in a database state, by transactionId. -/
def paymentStatusIn (tx : Nat) (s : DB) : Option PaymentStatus :=
  (findPaymentByTransactionId tx s).map (fun p => p.status)

theorem statusIn_update (oid oid' : Nat) (st : OrderStatus) (os : List Order) :
    ((updateOrderStatus oid' st os).find? (fun o => o.id == oid)).map (fun o => o.status)
      = (os.find? (fun o => o.id == oid)).map (fun o => o.status)
    ∨ ((updateOrderStatus oid' st os).find? (fun o => o.id == oid)).map (fun o => o.status)
      = some st := by
  have hcomp : ((fun q : Order => q.id == oid) ∘
      (fun x : Order => if x.id == oid' then { x with status := st } else x))
      = (fun q : Order => q.id == oid) := by
    funext x
    by_cases hx : (x.id == oid') = true <;> simp [Function.comp, hx]
  unfold updateOrderStatus
  rw [List.find?_map, hcomp]
  cases hfind : os.find? (fun o => o.id == oid) with
  | none => left; rfl
  | some o =>
    by_cases hid : (o.id == oid') = true
    · right; rw [Option.map_some', Option.map_some']
      simp [hid]
    · left; rw [Option.map_some', Option.map_some']
      simp only [Bool.not_eq_true] at hid
      simp [hid]

theorem getProductStock_reduce_le (pid pid' : Nat) (q : Nat)
    (prods : List Product) (st : Int)
    (hst : getProductStock pid prods = some st) :
    ∃ st', getProductStock pid (reduceProductStock pid' q prods) = some st'
      ∧ st' ≤ st := by
  have hcomp : ((fun pr : Product => pr.id == pid) ∘
      (fun x : Product =>
        if x.id == pid' ∧ (q : Int) ≤ x.stock then { x with stock := x.stock - q } else x))
      = (fun pr : Product => pr.id == pid) := by
    funext x
    by_cases hx : ((x.id == pid') = true ∧ (q : Int) ≤ x.stock)
    · simp only [Function.comp_apply, if_pos hx]
    · simp only [Function.comp_apply, if_neg hx]
  unfold getProductStock at hst ⊢
  unfold reduceProductStock
  rw [List.find?_map, hcomp]
  cases hfind : prods.find? (fun pr => pr.id == pid) with
  | none => rw [hfind] at hst; simp at hst
  | some pr =>
    rw [hfind] at hst; simp at hst
    rw [Option.map_some', Option.map_some']
    by_cases hcond : ((pr.id == pid') = true ∧ (q : Int) ≤ pr.stock)
    · refine ⟨pr.stock - q, ?_, by omega⟩
      rw [if_pos hcond]
    · refine ⟨st, ?_, le_refl st⟩
      rw [if_neg hcond, hst]

theorem reduceStockForItems_fails (items : List OrderItem)
    (prods : List Product) (item : OrderItem) (st : Int)
    (hi : item ∈ items)
    (hst : getProductStock item.productId prods = some st)
    (hlt : st < (item.quantity : Int)) :
    ∃ e, reduceStockForItems items prods = .error e := by
  induction items generalizing prods st with
  | nil => cases hi
  | cons a rest ih =>
    rcases List.mem_cons.mp hi with rfl | hmem
    · refine ⟨.appError "Insufficient stock" 400, ?_⟩
      simp [reduceStockForItems, hst, hlt]
    · cases ha : getProductStock a.productId prods with
      | none =>
        exact ⟨.notFound "Product not found",
          by simp [reduceStockForItems, ha]⟩
      | some sta =>
        by_cases hq : sta < (a.quantity : Int)
        · exact ⟨.appError "Insufficient stock" 400,
            by simp [reduceStockForItems, ha, hq]⟩
        · obtain ⟨st', hst', hle⟩ :=
            getProductStock_reduce_le item.productId a.productId a.quantity prods st hst
          obtain ⟨e, he⟩ := ih (reduceProductStock a.productId a.quantity prods)
            st' hmem hst' (lt_of_le_of_lt hle hlt)
          refine ⟨e, ?_⟩
          simp [reduceStockForItems, ha, hq, he]

/-- The settlement guard: a completed payment makes
`updateDbOnPaymentSucceed` an immediate no-op commit. -/
theorem updateDbOnPaymentSucceed_guard (tx raw : Nat) (s : DB) (p : Payment)
    (hp : findPaymentByTransactionId tx s = some p)
    (hc : p.status = PaymentStatus.completed) :
    updateDbOnPaymentSucceed tx raw s = (s, none) := by
  unfold updateDbOnPaymentSucceed runTx updateDbOnPaymentSucceedE
  rw [hp]
  simp [hc]

/-! ### C1 -/

/-- C1: replaying a completed settlement is a no-op. If a first
`updateDbOnPaymentSucceed` call for `tx` commits from a not-yet-completed
payment, then afterwards the payment's status is completed, the order's
status is paid, and invoking `updateDbOnPaymentSucceed` again for the same
transactionId returns the state unchanged — so each product's stock is
decremented exactly once in total across the two invocations. -/
theorem claim1_completed_settlement_idempotent
    (tx raw raw2 : Nat) (s s' : DB) (p : Payment) (o : Order)
    (hp : findPaymentByTransactionId tx s = some p)
    (hnc : p.status ≠ PaymentStatus.completed)
    (ho : findOrderById p.orderId s = some o)
    (hrun : updateDbOnPaymentSucceed tx raw s = (s', none)) :
    paymentStatusIn tx s' = some PaymentStatus.completed
    ∧ orderStatusIn p.orderId s' = some OrderStatus.paid
    ∧ updateDbOnPaymentSucceed tx raw2 s' = (s', none) := by
  unfold updateDbOnPaymentSucceed runTx updateDbOnPaymentSucceedE at hrun
  rw [hp] at hrun
  simp only [if_neg hnc, ho] at hrun
  cases hred : reduceStockForItems o.items s.products with
  | error e => simp only [hred] at hrun; simp at hrun
  | ok prods =>
    simp only [hred] at hrun
    simp only [Prod.mk.injEq] at hrun
    obtain ⟨hs', -⟩ := hrun
    have hpay : findPaymentByTransactionId tx s'
        = some { p with status := PaymentStatus.completed, raw := raw } := by
      rw [← hs']
      exact updatePaymentStatus_find tx PaymentStatus.completed raw s.payments p hp
    refine ⟨?_, ?_, ?_⟩
    · rw [paymentStatusIn, hpay]; rfl
    · have := updateOrderStatus_find p.orderId OrderStatus.paid s.orders o ho
      rw [orderStatusIn, findOrderById, ← hs']
      rw [this]
      rfl
    · exact updateDbOnPaymentSucceed_guard tx raw2 s' _ hpay rfl

/-- C1 witness: a concrete first settlement followed by a replay. -/
theorem claim1_witness :
    let s : DB :=
      { orders := [{ id := 1, status := .pending, totalAmount := 55,
                     items := [{ productId := 5, quantity := 3 }] }]
        payments := [{ orderId := 1, provider := .stripe, transactionId := 7,
                       amount := 55, status := .pending, raw := 0 }]
        products := [{ id := 5, stock := 10 }] }
    paymentStatusIn 7 (updateDbOnPaymentSucceed 7 1 s).1
        = some PaymentStatus.completed
    ∧ orderStatusIn 1 (updateDbOnPaymentSucceed 7 1 s).1 = some OrderStatus.paid
    ∧ updateDbOnPaymentSucceed 7 2 (updateDbOnPaymentSucceed 7 1 s).1
        = ((updateDbOnPaymentSucceed 7 1 s).1, none) := by
  intro s
  exact claim1_completed_settlement_idempotent 7 1 2 s
    (updateDbOnPaymentSucceed 7 1 s).1
    { orderId := 1, provider := .stripe, transactionId := 7,
      amount := 55, status := .pending, raw := 0 }
    { id := 1, status := .pending, totalAmount := 55,
      items := [{ productId := 5, quantity := 3 }] }
    (by decide) (by decide) (by decide) (by decide)

/-! ### Structural lemmas about the three settlement handlers -/

theorem updateDbOnPaymentFailed_state (tx raw : Nat) (s : DB) :
    ((updateDbOnPaymentFailed tx raw s).1).orders = s.orders
    ∧ ((updateDbOnPaymentFailed tx raw s).1).products = s.products := by
  unfold updateDbOnPaymentFailed runTx updateDbOnPaymentFailedE
  cases hfind : findPaymentByTransactionId tx s <;> simp

theorem updateDbOnPaymentCanceled_state (tx raw : Nat) (s : DB) :
    (((updateDbOnPaymentCanceled tx raw s).1).orders = s.orders
      ∨ ∃ oid, ((updateDbOnPaymentCanceled tx raw s).1).orders
          = updateOrderStatus oid OrderStatus.canceled s.orders)
    ∧ ((updateDbOnPaymentCanceled tx raw s).1).products = s.products := by
  unfold updateDbOnPaymentCanceled runTx updateDbOnPaymentCanceledE
  cases hfind : findPaymentByTransactionId tx s with
  | none => simp
  | some p => exact ⟨Or.inr ⟨p.orderId, rfl⟩, rfl⟩

theorem updateDbOnPaymentSucceed_state (tx raw : Nat) (s : DB) :
    (((updateDbOnPaymentSucceed tx raw s).1).orders = s.orders
      ∨ ∃ oid, ((updateDbOnPaymentSucceed tx raw s).1).orders
          = updateOrderStatus oid OrderStatus.paid s.orders)
    ∧ (((updateDbOnPaymentSucceed tx raw s).1).products = s.products
      ∨ ∃ items, reduceStockForItems items s.products
          = .ok ((updateDbOnPaymentSucceed tx raw s).1).products) := by
  unfold updateDbOnPaymentSucceed runTx updateDbOnPaymentSucceedE
  cases hfind : findPaymentByTransactionId tx s with
  | none => simp
  | some p =>
    by_cases hc : p.status = PaymentStatus.completed
    · simp [hc]
    · simp only [if_neg hc]
      cases ho : findOrderById p.orderId s with
      | none => exact ⟨Or.inr ⟨p.orderId, rfl⟩, Or.inl rfl⟩
      | some o =>
        cases hred : reduceStockForItems o.items s.products with
        | error e => simp only [hred]; simp
        | ok prods =>
          simp only [hred]
          exact ⟨Or.inr ⟨p.orderId, rfl⟩, Or.inr ⟨o.items, hred⟩⟩

theorem orderStatusIn_of_orders_eq (oid : Nat) (s s' : DB)
    (h : s'.orders = s.orders) : orderStatusIn oid s' = orderStatusIn oid s := by
  unfold orderStatusIn findOrderById
  rw [h]

theorem orderStatusIn_of_update (oid oid' : Nat) (st : OrderStatus) (s s' : DB)
    (h : s'.orders = updateOrderStatus oid' st s.orders) :
    orderStatusIn oid s' = orderStatusIn oid s ∨ orderStatusIn oid s' = some st := by
  unfold orderStatusIn findOrderById
  rw [h]
  exact statusIn_update oid oid' st s.orders

/-! ### C2 -/

/-- A state in which order 1 is already paid through completed payment 7. -/
def dbPaidCompleted : DB :=
  { orders := [{ id := 1, status := .paid, totalAmount := 55, items := [] }]
    payments := [{ orderId := 1, provider := .stripe, transactionId := 7,
                   amount := 55, status := .completed, raw := 0 }]
    products := [] }

/-- C2 counterexample: a canceled settlement event for a transactionId whose
payment already has status completed (order paid) moves the order from paid
to canceled and the payment from completed to failed —
`updateDbOnPaymentCanceled` carries no completed-status guard, so the
paid→canceled transition is reachable, contrary to the claim. -/
theorem claim2_counterexample :
    orderStatusIn 1 dbPaidCompleted = some OrderStatus.paid
    ∧ paymentStatusIn 7 dbPaidCompleted = some PaymentStatus.completed
    ∧ orderStatusIn 1 (updateDbOnPaymentCanceled 7 1 dbPaidCompleted).1
        = some OrderStatus.canceled
    ∧ paymentStatusIn 7 (updateDbOnPaymentCanceled 7 1 dbPaidCompleted).1
        = some PaymentStatus.failed := by
  decide

/-- C2 amended: under any settlement-engine operation an order's status is
either left unchanged, written to paid (only by the completed handler), or
written to canceled (only by the canceled handler); the failed handler never
changes any order's status. The original guarantee fails only in that
`updateDbOnPaymentCanceled` has no completed-payment guard, so a canceled
event arriving for an already-completed payment does move the order from
paid to canceled. -/
theorem claim2_amended_order_status_writes
    (ev : SettleEvent) (tx raw : Nat) (s : DB) (oid : Nat) :
    orderStatusIn oid (settle ev tx raw s).1 = orderStatusIn oid s
    ∨ (ev = SettleEvent.completed
        ∧ orderStatusIn oid (settle ev tx raw s).1 = some OrderStatus.paid)
    ∨ (ev = SettleEvent.canceled
        ∧ orderStatusIn oid (settle ev tx raw s).1 = some OrderStatus.canceled) := by
  cases ev with
  | completed =>
    obtain ⟨hor, -⟩ := updateDbOnPaymentSucceed_state tx raw s
    rcases hor with h | ⟨oid', h⟩
    · exact Or.inl (orderStatusIn_of_orders_eq oid s _ h)
    · rcases orderStatusIn_of_update oid oid' OrderStatus.paid s _ h with h' | h'
      · exact Or.inl h'
      · exact Or.inr (Or.inl ⟨rfl, h'⟩)
  | failed =>
    obtain ⟨hor, -⟩ := updateDbOnPaymentFailed_state tx raw s
    exact Or.inl (orderStatusIn_of_orders_eq oid s _ hor)
  | canceled =>
    obtain ⟨hor, -⟩ := updateDbOnPaymentCanceled_state tx raw s
    rcases hor with h | ⟨oid', h⟩
    · exact Or.inl (orderStatusIn_of_orders_eq oid s _ h)
    · rcases orderStatusIn_of_update oid oid' OrderStatus.canceled s _ h with h' | h'
      · exact Or.inl h'
      · exact Or.inr (Or.inr ⟨rfl, h'⟩)

/-! ### C8 -/

theorem reduceProductStock_nonneg (pid qty : Nat) (prods : List Product)
    (h : ∀ pr ∈ prods, 0 ≤ pr.stock) :
    ∀ pr ∈ reduceProductStock pid qty prods, 0 ≤ pr.stock := by
  intro pr hpr
  unfold reduceProductStock at hpr
  rcases List.mem_map.mp hpr with ⟨x, hx, rfl⟩
  by_cases hcond : ((x.id == pid) = true ∧ (qty : Int) ≤ x.stock)
  · rw [if_pos hcond]
    have := hcond.2
    simp only
    omega
  · rw [if_neg hcond]
    exact h x hx

theorem reduceStockForItems_nonneg (items : List OrderItem)
    (prods out : List Product)
    (hred : reduceStockForItems items prods = .ok out)
    (h : ∀ pr ∈ prods, 0 ≤ pr.stock) :
    ∀ pr ∈ out, 0 ≤ pr.stock := by
  induction items generalizing prods with
  | nil =>
    unfold reduceStockForItems at hred
    injection hred with hred
    exact hred ▸ h
  | cons a rest ih =>
    unfold reduceStockForItems at hred
    cases ha : getProductStock a.productId prods with
    | none => simp only [ha] at hred; exact absurd hred (by simp)
    | some sta =>
      simp only [ha] at hred
      by_cases hq : sta < (a.quantity : Int)
      · rw [if_pos hq] at hred; exact absurd hred (by simp)
      · rw [if_neg hq] at hred
        exact ih (reduceProductStock a.productId a.quantity prods) hred
          (reduceProductStock_nonneg a.productId a.quantity prods h)

theorem settle_nonneg (ev : SettleEvent) (tx raw : Nat) (s : DB)
    (h : ∀ pr ∈ s.products, 0 ≤ pr.stock) :
    ∀ pr ∈ ((settle ev tx raw s).1).products, 0 ≤ pr.stock := by
  cases ev with
  | completed =>
    obtain ⟨-, hpr⟩ := updateDbOnPaymentSucceed_state tx raw s
    rcases hpr with heq | ⟨items, hred⟩
    · simpa [settle, heq] using h
    · exact reduceStockForItems_nonneg items s.products _ hred h
  | failed =>
    have heq := (updateDbOnPaymentFailed_state tx raw s).2
    simpa [settle, heq] using h
  | canceled =>
    have heq := (updateDbOnPaymentCanceled_state tx raw s).2
    simpa [settle, heq] using h

theorem runSettles_nonneg (evs : List (SettleEvent × Nat × Nat)) (s : DB)
    (h : ∀ pr ∈ s.products, 0 ≤ pr.stock) :
    ∀ pr ∈ (runSettles evs s).products, 0 ≤ pr.stock := by
  induction evs generalizing s with
  | nil => exact h
  | cons e rest ih =>
    unfold runSettles at ih ⊢
    rw [List.foldl_cons]
    exact ih _ (settle_nonneg e.1 e.2.1 e.2.2 s h)

/-- C8: product stock never becomes negative under any sequence of
settlement operations (starting from nonnegative stock), and stock is
mutated only on the completed path: the failed and canceled settlement
handlers leave every product row untouched. -/
theorem claim8_stock_nonneg_only_completed_decrements
    (evs : List (SettleEvent × Nat × Nat)) (tx raw : Nat) (s : DB)
    (h : ∀ pr ∈ s.products, 0 ≤ pr.stock) :
    (∀ pr ∈ (runSettles evs s).products, 0 ≤ pr.stock)
    ∧ ((updateDbOnPaymentFailed tx raw s).1).products = s.products
    ∧ ((updateDbOnPaymentCanceled tx raw s).1).products = s.products :=
  ⟨runSettles_nonneg evs s h,
   (updateDbOnPaymentFailed_state tx raw s).2,
   (updateDbOnPaymentCanceled_state tx raw s).2⟩

/-- C8 witness: a concrete run of a completed then a canceled event. -/
theorem claim8_witness :
    let s : DB :=
      { orders := [{ id := 1, status := .pending, totalAmount := 55,
                     items := [{ productId := 5, quantity := 3 }] }]
        payments := [{ orderId := 1, provider := .stripe, transactionId := 7,
                       amount := 55, status := .pending, raw := 0 }]
        products := [{ id := 5, stock := 3 }] }
    (∀ pr ∈ (runSettles [(.completed, 7, 1), (.canceled, 7, 2)] s).products,
        0 ≤ pr.stock)
    ∧ ((updateDbOnPaymentFailed 7 3 s).1).products = s.products
    ∧ ((updateDbOnPaymentCanceled 7 3 s).1).products = s.products := by
  intro s
  exact claim8_stock_nonneg_only_completed_decrements
    [(.completed, 7, 1), (.canceled, 7, 2)] 7 3 s (by decide)

/-! ### C5 -/

/-- C5: if during completed-settlement some order item's product has live
stock strictly below the item's quantity, the whole unit of work aborts and
rolls back: `updateDbOnPaymentSucceed` returns the original state unchanged
(no payment status, order status, or stock write survives) together with the
raised error. -/
theorem claim5_insufficient_stock_aborts
    (tx raw : Nat) (s : DB) (p : Payment) (o : Order)
    (item : OrderItem) (st : Int)
    (hp : findPaymentByTransactionId tx s = some p)
    (hnc : p.status ≠ PaymentStatus.completed)
    (ho : findOrderById p.orderId s = some o)
    (hi : item ∈ o.items)
    (hst : getProductStock item.productId s.products = some st)
    (hlt : st < (item.quantity : Int)) :
    ∃ e, updateDbOnPaymentSucceed tx raw s = (s, some e) := by
  obtain ⟨e, he⟩ := reduceStockForItems_fails o.items s.products item st hi hst hlt
  refine ⟨e, ?_⟩
  unfold updateDbOnPaymentSucceed runTx updateDbOnPaymentSucceedE
  rw [hp]
  simp only [if_neg hnc, ho, he]

/-- C5 witness: a concrete settlement against insufficient live stock. -/
theorem claim5_witness :
    let s : DB :=
      { orders := [{ id := 1, status := .pending, totalAmount := 55,
                     items := [{ productId := 5, quantity := 3 }] }]
        payments := [{ orderId := 1, provider := .stripe, transactionId := 7,
                       amount := 55, status := .pending, raw := 0 }]
        products := [{ id := 5, stock := 1 }] }
    ∃ e, updateDbOnPaymentSucceed 7 1 s = (s, some e) := by
  intro s
  exact claim5_insufficient_stock_aborts 7 1 s
    { orderId := 1, provider := .stripe, transactionId := 7,
      amount := 55, status := .pending, raw := 0 }
    { id := 1, status := .pending, totalAmount := 55,
      items := [{ productId := 5, quantity := 3 }] }
    { productId := 5, quantity := 3 } 1
    (by decide) (by decide) (by decide) (by decide) (by decide) (by decide)

/-! ### C9 -/

/-- The empty database state. -/
def dbEmpty : DB := { orders := [], payments := [], products := [] }

/-- C9 counterexample: with no payment row for transactionId 7, the failed
and canceled settlement handlers return successfully with no error and no
mutation — the missing-payment condition is silently dropped as a no-op
instead of being surfaced as NotFound, contrary to the claim that every
settlement invocation surfaces it. -/
theorem claim9_counterexample :
    findPaymentByTransactionId 7 dbEmpty = none
    ∧ updateDbOnPaymentFailed 7 0 dbEmpty = (dbEmpty, none)
    ∧ updateDbOnPaymentCanceled 7 0 dbEmpty = (dbEmpty, none) := by
  decide

/-- C9 amended: only the completed handler surfaces NotFound for an unknown
transactionId; the failed and canceled handlers log and return with no
error and no mutation. -/
theorem claim9_amended_notfound_surfacing (tx raw : Nat) (s : DB)
    (h : findPaymentByTransactionId tx s = none) :
    updateDbOnPaymentSucceed tx raw s
        = (s, some (.notFound "Payment not found for transaction"))
    ∧ updateDbOnPaymentFailed tx raw s = (s, none)
    ∧ updateDbOnPaymentCanceled tx raw s = (s, none) := by
  refine ⟨?_, ?_, ?_⟩
  · unfold updateDbOnPaymentSucceed runTx updateDbOnPaymentSucceedE
    rw [h]
  · unfold updateDbOnPaymentFailed runTx updateDbOnPaymentFailedE
    rw [h]
  · unfold updateDbOnPaymentCanceled runTx updateDbOnPaymentCanceledE
    rw [h]

/-- C9 witness: the amended behavior at the empty database. -/
theorem claim9_amended_witness :
    updateDbOnPaymentSucceed 9 0 dbEmpty
        = (dbEmpty, some (.notFound "Payment not found for transaction"))
    ∧ updateDbOnPaymentFailed 9 0 dbEmpty = (dbEmpty, none)
    ∧ updateDbOnPaymentCanceled 9 0 dbEmpty = (dbEmpty, none) :=
  claim9_amended_notfound_surfacing 9 0 dbEmpty (by decide)

/-! ### C10 -/

/-- C10: a processPayment request with provider bkash fails immediately
with the validation error "Bkash payment provider is currently not
supported.", leaving every state unchanged before any order lookup or
provider call (the result is the same for every database state and every
provider result), even though `getStrategy` itself resolves a bkash
strategy for that provider. -/
theorem claim10_bkash_rejected_upfront
    (orderId : Nat) (res : PaymentResult) (s : DB) :
    processPayment { orderId := orderId, provider := Provider.bkash } res s
      = (s, .error (.validation "Bkash payment provider is currently not supported."))
    ∧ getStrategy Provider.bkash = StrategyTag.bkashStrategy := by
  constructor
  · unfold processPayment
    rw [if_pos rfl]
  · rfl

/-! ### C4 -/

/-- A pending order 1 (one item: product 5, qty 3, stock 10), no payments. -/
def dbPendingOrder : DB :=
  { orders := [{ id := 1, status := .pending, totalAmount := 55,
                 items := [{ productId := 5, quantity := 3 }] }]
    payments := []
    products := [{ id := 5, stock := 10 }] }

/-- A provider result whose initial status is already terminal. -/
def resCompleted : PaymentResult :=
  { success := true, transactionId := 7, status := .completed,
    raw := 1, message := none }

/-- C4 counterexample: a createPayment call whose provider returns an
already-terminal (completed) initial status persists the payment with
status completed, but the order stays pending and the product's stock is
not decremented — the Settlement Engine is not invoked as part of the
call, contrary to the claim. -/
theorem claim4_counterexample :
    ((processPayment { orderId := 1, provider := .stripe } resCompleted
        dbPendingOrder).2.toOption.map (fun p => p.status))
      = some PaymentStatus.completed
    ∧ orderStatusIn 1 (processPayment { orderId := 1, provider := .stripe }
        resCompleted dbPendingOrder).1 = some OrderStatus.pending
    ∧ getProductStock 5 ((processPayment { orderId := 1, provider := .stripe }
        resCompleted dbPendingOrder).1).products = some 10 := by
  decide

/-- C4 amended: when the provider's createIntent succeeds with a terminal
(completed) initial status, `processPayment` persists the new Payment row
with status completed but does not invoke the Settlement Engine: the
orders and products tables are unchanged by that call (the order is not
marked paid and no stock is decremented). -/
theorem claim4_amended_no_synchronous_settlement
    (data : ProcessPaymentDto) (res : PaymentResult) (s s' : DB) (pay : Payment)
    (hres : res.status = PaymentStatus.completed)
    (hrun : processPayment data res s = (s', Except.ok pay)) :
    pay.status = PaymentStatus.completed
    ∧ s'.orders = s.orders
    ∧ s'.products = s.products := by
  unfold processPayment at hrun
  split at hrun
  · simp at hrun
  · split at hrun
    · simp at hrun
    · split at hrun
      · simp at hrun
      · split at hrun
        · simp at hrun
        · split at hrun
          · simp at hrun
          · simp only [Prod.mk.injEq, Except.ok.injEq] at hrun
            obtain ⟨hs, hpay⟩ := hrun
            refine ⟨?_, ?_, ?_⟩
            · rw [← hpay]
              unfold mkPaymentRow
              simp [hres]
            · rw [← hs]
            · rw [← hs]

/-- C4 amended witness: the concrete terminal-initial-status call. -/
theorem claim4_amended_witness :
    resCompleted.status = PaymentStatus.completed
    ∧ ((processPayment { orderId := 1, provider := .stripe } resCompleted
          dbPendingOrder).2.toOption.map (fun p => p.status))
        = some PaymentStatus.completed := by
  have h := claim4_amended_no_synchronous_settlement
    { orderId := 1, provider := .stripe } resCompleted dbPendingOrder
    (processPayment { orderId := 1, provider := .stripe } resCompleted
      dbPendingOrder).1
    (mkPaymentRow { orderId := 1, provider := .stripe } resCompleted
      { id := 1, status := .pending, totalAmount := 55,
        items := [{ productId := 5, quantity := 3 }] })
    (by decide) rfl
  refine ⟨by decide, ?_⟩
  have : (processPayment { orderId := 1, provider := .stripe } resCompleted
      dbPendingOrder).2
      = Except.ok (mkPaymentRow { orderId := 1, provider := .stripe } resCompleted
        { id := 1, status := .pending, totalAmount := 55,
          items := [{ productId := 5, quantity := 3 }] }) := rfl
  rw [this, Except.toOption, Option.map_some', h.1]

/-! ### C6 -/

/-- C6 counterexample: for provider bkash with a nonexistent order, the
call fails with a Validation error (the up-front bkash rejection), not
with NotFound — so the claim's "if the order does not exist the call fails
with NotFound" does not hold for every createPayment call. -/
theorem claim6_counterexample :
    findOrderById 1 dbEmpty = none
    ∧ processPayment { orderId := 1, provider := Provider.bkash }
        resCompleted dbEmpty
      = (dbEmpty,
         .error (.validation "Bkash payment provider is currently not supported.")) := by
  refine ⟨rfl, ?_⟩
  unfold processPayment
  rw [if_pos rfl]

/-- C6 amended: for every processPayment call with a provider other than
bkash: a missing order fails with NotFound; an order not in status pending
fails with Conflict "Order cannot be paid. Current status: <status>" (for a
paid order exactly "...: paid"); an existing completed payment for the
order fails with Conflict "Order has already been paid"; in each failure
case the state is returned unchanged (no Payment row is created). -/
theorem claim6_amended_precondition_failures
    (data : ProcessPaymentDto) (res : PaymentResult) (s : DB)
    (hnb : data.provider ≠ Provider.bkash) :
    (findOrderById data.orderId s = none →
      processPayment data res s = (s, .error (.notFound "Order not found")))
    ∧ (∀ o, findOrderById data.orderId s = some o →
        o.status ≠ OrderStatus.pending →
        processPayment data res s
          = (s, .error (.conflict ("Order cannot be paid. Current status: "
              ++ orderStatusToString o.status))))
    ∧ (∀ o, findOrderById data.orderId s = some o →
        o.status = OrderStatus.paid →
        processPayment data res s
          = (s, .error (.conflict "Order cannot be paid. Current status: paid")))
    ∧ (∀ o, findOrderById data.orderId s = some o →
        o.status = OrderStatus.pending →
        (findPaymentsByOrderId data.orderId s).any
            (fun p => p.status == PaymentStatus.completed) = true →
        processPayment data res s
          = (s, .error (.conflict "Order has already been paid"))) := by
  refine ⟨?_, ?_, ?_, ?_⟩
  · intro h
    unfold processPayment
    rw [if_neg hnb]
    simp only [h]
  · intro o ho hns
    unfold processPayment
    rw [if_neg hnb]
    simp only [ho]
    rw [if_pos hns]
  · intro o ho hpaid
    unfold processPayment
    rw [if_neg hnb]
    simp only [ho]
    rw [if_pos (by rw [hpaid]; decide), hpaid]
    rfl
  · intro o ho hpend hany
    unfold processPayment
    rw [if_neg hnb]
    simp only [ho]
    rw [if_neg (not_not_intro hpend), if_pos hany]

/-- C6 witness: Scenario E at a concrete already-paid order. -/
theorem claim6_amended_witness :
    processPayment { orderId := 1, provider := Provider.stripe }
        resCompleted dbPaidCompleted
      = (dbPaidCompleted,
         .error (.conflict "Order cannot be paid. Current status: paid")) :=
  (claim6_amended_precondition_failures
      { orderId := 1, provider := Provider.stripe } resCompleted dbPaidCompleted
      (by decide)).2.2.1
    { id := 1, status := .paid, totalAmount := 55, items := [] }
    (by decide) rfl

/-! ### C7 -/

/-- C7: with the order checks passed, a provider failure
(success = false) returns a Validation error with the database state
unchanged — zero Payment rows persisted, so the attempt is retryable —
while a provider success persists exactly one new Payment row (the new
row consed onto the unchanged payments list). -/
theorem claim7_provider_failure_no_row
    (data : ProcessPaymentDto) (res : PaymentResult) (s : DB) (o : Order)
    (hnb : data.provider ≠ Provider.bkash)
    (ho : findOrderById data.orderId s = some o)
    (hpend : o.status = OrderStatus.pending)
    (hnc : (findPaymentsByOrderId data.orderId s).any
        (fun p => p.status == PaymentStatus.completed) = false) :
    (res.success = false →
      processPayment data res s
        = (s, .error (.validation (res.message.getD "Payment processing failed"))))
    ∧ (res.success = true →
      processPayment data res s
        = ({ s with payments := mkPaymentRow data res o :: s.payments },
           .ok (mkPaymentRow data res o))) := by
  constructor
  · intro hf
    unfold processPayment
    rw [if_neg hnb]
    simp only [ho]
    rw [if_neg (not_not_intro hpend), if_neg (by simp [hnc]), if_pos hf]
  · intro ht
    unfold processPayment
    rw [if_neg hnb]
    simp only [ho]
    rw [if_neg (not_not_intro hpend), if_neg (by simp [hnc]),
        if_neg (by simp [ht])]

/-- C7 witness: provider failure against a concrete pending order. -/
theorem claim7_witness :
    processPayment { orderId := 1, provider := Provider.stripe }
        { success := false, transactionId := 0, status := .failed,
          raw := 2, message := some "card declined" } dbPendingOrder
      = (dbPendingOrder, .error (.validation "card declined")) :=
  (claim7_provider_failure_no_row
      { orderId := 1, provider := Provider.stripe }
      { success := false, transactionId := 0, status := .failed,
        raw := 2, message := some "card declined" }
      dbPendingOrder
      { id := 1, status := .pending, totalAmount := 55,
        items := [{ productId := 5, quantity := 3 }] }
      (by decide) (by decide) rfl (by decide)).1 rfl

/-! ### C3 -/

theorem toFixed2_intCast_div (n : ℤ) :
    toFixed2 ((n : ℚ) / 100) = (n : ℚ) / 100 := by
  unfold toFixed2
  have h1 : ((n : ℚ) / 100) * 100 = (n : ℚ) :=
    div_mul_cancel₀ _ (by norm_num)
  rw [h1]
  have h2 : ⌊(n : ℚ) + 1 / 2⌋ = n := by
    rw [add_comm, Int.floor_add_int]
    have : ⌊(1 : ℚ) / 2⌋ = 0 := by
      rw [Int.floor_eq_zero_iff]
      constructor <;> norm_num
    rw [this, zero_add]
  rw [h2]

theorem subtotal_exact (price : ℚ) (qty : Nat) (c : ℤ)
    (hc : price = (c : ℚ) / 100) :
    toFixed2 (price * (qty : ℚ)) = price * (qty : ℚ) := by
  subst hc
  have h : (c : ℚ) / 100 * (qty : ℚ) = (((c * qty : ℤ) : ℚ)) / 100 := by
    push_cast
    ring
  rw [h, toFixed2_intCast_div]

theorem foldl_add_subtotal (l : List CalcItem) (acc : ℚ) :
    l.foldl (fun a it => a + it.subtotal) acc
      = acc + (l.map (fun it => it.subtotal)).sum := by
  induction l generalizing acc with
  | nil => simp
  | cons a t ih =>
    rw [List.foldl_cons, ih, List.map_cons, List.sum_cons]
    ring

theorem sum_cents (l : List ℚ) (h : ∀ x ∈ l, ∃ n : ℤ, x = (n : ℚ) / 100) :
    ∃ n : ℤ, l.sum = (n : ℚ) / 100 := by
  induction l with
  | nil => exact ⟨0, by simp⟩
  | cons a t ih =>
    obtain ⟨na, ha⟩ := h a (List.mem_cons_self a t)
    obtain ⟨nt, ht⟩ := ih (fun x hx => h x (List.mem_cons_of_mem a hx))
    refine ⟨na + nt, ?_⟩
    rw [List.sum_cons, ha, ht]
    push_cast
    ring

/-- C3: for every created order whose item prices are exact two-decimal
values, the order's total equals the exact sum of the items' subtotals,
and each computed item's subtotal equals its unit price times its quantity
exactly (the `toFixed(2)` rounding is the identity on these values). -/
theorem claim3_total_is_sum_of_subtotals (items : List CreateOrderItem)
    (h : ∀ it ∈ items, ∃ c : ℤ, it.price = (c : ℚ) / 100) :
    (createOrderAggregate items).2.2
      = ((calculateOrderItems items).map (fun it => it.subtotal)).sum
    ∧ ∀ ci ∈ calculateOrderItems items,
        ci.subtotal = ci.price * (ci.quantity : ℚ) := by
  have hsub : ∀ ci ∈ calculateOrderItems items,
      ci.subtotal = ci.price * (ci.quantity : ℚ) := by
    intro ci hci
    unfold calculateOrderItems at hci
    rcases List.mem_map.mp hci with ⟨src, hsrc, rfl⟩
    obtain ⟨c, hc⟩ := h src hsrc
    exact subtotal_exact src.price src.quantity c hc
  refine ⟨?_, hsub⟩
  show calculateTotal (calculateOrderItems items) = _
  unfold calculateTotal
  rw [foldl_add_subtotal, zero_add]
  have hcents : ∀ x ∈ (calculateOrderItems items).map (fun it => it.subtotal),
      ∃ n : ℤ, x = (n : ℚ) / 100 := by
    intro x hx
    rcases List.mem_map.mp hx with ⟨ci, hci, rfl⟩
    rw [hsub ci hci]
    unfold calculateOrderItems at hci
    rcases List.mem_map.mp hci with ⟨src, hsrc, rfl⟩
    obtain ⟨c, hc⟩ := h src hsrc
    refine ⟨c * src.quantity, ?_⟩
    simp only [hc]
    push_cast
    ring
  obtain ⟨n, hn⟩ := sum_cents _ hcents
  rw [hn, toFixed2_intCast_div]

/-- C3 witness: qty 3 at 10.00 plus qty 1 at 25.00 totals exactly 55.00. -/
theorem claim3_witness :
    ((createOrderAggregate
        [{ productId := 5, quantity := 3, price := 10 },
         { productId := 6, quantity := 1, price := 25 }]).2.2
      = ((calculateOrderItems
          [{ productId := 5, quantity := 3, price := 10 },
           { productId := 6, quantity := 1, price := 25 }]).map
            (fun it => it.subtotal)).sum)
    ∧ (createOrderAggregate
        [{ productId := 5, quantity := 3, price := 10 },
         { productId := 6, quantity := 1, price := 25 }]).2.2 = 55 := by
  have hprice : ∀ it ∈
      [({ productId := 5, quantity := 3, price := 10 } : CreateOrderItem),
       { productId := 6, quantity := 1, price := 25 }],
      ∃ c : ℤ, it.price = (c : ℚ) / 100 := by
    intro it hit
    rcases List.mem_cons.mp hit with rfl | hit
    · exact ⟨1000, by norm_num⟩
    rcases List.mem_cons.mp hit with rfl | hit
    · exact ⟨2500, by norm_num⟩
    · cases hit
  have h := claim3_total_is_sum_of_subtotals _ hprice
  refine ⟨h.1, ?_⟩
  rw [h.1]
  show ((calculateOrderItems _).map (fun it => it.subtotal)).sum = 55
  unfold calculateOrderItems
  simp only [List.map_cons, List.map_nil, List.sum_cons, List.sum_nil]
  rw [subtotal_exact 10 3 1000 (by norm_num),
      subtotal_exact 25 1 2500 (by norm_num)]
  norm_num

end ECom
